import Mathlib

/-!
Shallow embedding of the notification-server core (d34dman/notification-server).

The embedding follows the TypeScript sources:
* `src/services/notification.service.ts` — `NotificationService` (history log)
  and the `WebSocketManager` wired by `src/index.ts` (subscription protocol and
  broadcast fan-out with per-delivery access re-check);
* `src/services/subscription.service.ts` — `SubscriptionService` (bidirectional
  subscription index);
* `src/middleware/error.middleware.ts` — `AccessControlService` (client ids,
  channel rules, `hasChannelAccess`, `revokeChannelAccess`);
* `src/index.ts` — the HTTP route handlers (create client, create/delete
  channel, grant/revoke access, publish, read history).

Redis is modelled as explicit state: hashes become structures of optional
fields (`hgetall` of a missing key yields the all-absent record, matching the
empty object ioredis returns), sets become lists with `sadd`/`srem` helpers,
lists become Lean lists with `lpush`/`ltrim`/`lrange` semantics, and key TTLs
become explicit `expireAt` deadlines against an abstract clock.
`new RegExp(pattern).test(clientId)` is treated as an oracle parameter
(`RegexTest`), since the JS regex engine is an external library.
-/

namespace NotifServer

/-- Pointwise update of a total map, used to model writes to a Redis key. -/
def setFun (f : String → α) (k : String) (v : α) : String → α :=
  fun x => if x = k then v else f x

/-- Redis SADD on a set modelled as a list: add the element if absent. -/
def saddL (l : List String) (x : String) : List String :=
  if x ∈ l then l else l ++ [x]

/-- Redis SREM on a set modelled as a list: remove the element. -/
def sremL (l : List String) (x : String) : List String :=
  l.filter (fun y => !(y == x))

/-- The `NotificationMessage` record from `src/types/index.ts`. -/
structure NotificationMessage where
  id : String
  channel : String
  message : String
  timestamp : Nat
deriving DecidableEq, Repr

/-- The Redis hash `channel:<name>:rules` written by
`AccessControlService.createChannel`.  Each field is optional because
`hgetall` returns only the fields present; JSON (de)serialisation of the
string-list fields is treated as the identity embedding. -/
structure RulesHash where
  allowedClientIds : Option (List String) := none
  allowedPatterns : Option (List String) := none
  maxSubscribers : Option String := none
  isPublic : Option String := none
deriving DecidableEq, Repr

/-- The Redis hash `client:<id>` plus its key TTL (`expireAt` deadline). -/
structure ClientRecord where
  createdAt : Nat
  expireAt : Nat
  metadata : List (String × String) := []
deriving DecidableEq, Repr

/-- A live WebSocket connection as tracked in `WebSocketManager.clients`:
`isOpen` models `ws.readyState === WebSocket.OPEN`, `subscribedChannels` the
client-local `Set<string>`. -/
structure Conn where
  isOpen : Bool
  subscribedChannels : List String := []
deriving DecidableEq, Repr

/-- The observable server state: the Redis keyspace
(`client:<id>`, `channel:<name>:rules`, `subscription:<channel>`,
`client-subscriptions:<clientId>`, `notification:<channel>`) together with the
in-memory live-connection table. -/
structure SrvState where
  clientsDb : String → Option ClientRecord
  channelRules : String → Option RulesHash
  channelSubs : String → List String
  clientSubs : String → List String
  channelNotifs : String → List NotificationMessage
  conns : String → Option Conn

/-- The all-empty server state (fresh Redis, no connections). -/
def emptySrvState : SrvState where
  clientsDb := fun _ => none
  channelRules := fun _ => none
  channelSubs := fun _ => []
  clientSubs := fun _ => []
  channelNotifs := fun _ => []
  conns := fun _ => none

/-- Oracle for `new RegExp(pattern).test(clientId)`. -/
abbrev RegexTest := String → String → Bool

/-! Section: AccessControlService (`src/middleware/error.middleware.ts`) -/

/-- Model of `redis.hgetall("channel:" ++ ch ++ ":rules")`: a missing key yields the
record with every field absent (ioredis returns `{}`). -/
def hgetallRules (st : SrvState) (ch : String) : RulesHash :=
  (st.channelRules ch).getD {}

/-- Model of `AccessControlService.hasChannelAccess`.  The TS guard `if (!rules)` is
dead code (`hgetall` never returns a falsy value), so the missing-channel case
flows through the empty rules record exactly as here. -/
def hasChannelAccess (rt : RegexTest) (st : SrvState) (clientId ch : String) : Bool :=
  let rules := hgetallRules st ch
  if rules.isPublic = some "1" then true
  else if clientId ∈ rules.allowedClientIds.getD [] then true
  else (rules.allowedPatterns.getD []).any (fun p => rt p clientId)

/-- Existence of a client key at time `now`: Redis drops the key once the TTL
deadline has passed. -/
def redisClientExists (st : SrvState) (now : Nat) (clientId : String) : Bool :=
  match st.clientsDb clientId with
  | some r => decide (now < r.expireAt)
  | none => false

/-- Model of `AccessControlService.refreshClientId`: if the key exists, reset its TTL
to the configured expiration window. -/
def refreshClientId (ttl : Nat) (st : SrvState) (now : Nat) (clientId : String) : SrvState :=
  match st.clientsDb clientId with
  | some r =>
      if now < r.expireAt then
        { st with clientsDb := setFun st.clientsDb clientId (some { r with expireAt := now + ttl }) }
      else st
  | none => st

/-- Model of `AccessControlService.validateClientId`: true iff the key exists; on
success the expiration is refreshed as a side effect. -/
def validateClientId (ttl : Nat) (st : SrvState) (now : Nat) (clientId : String) :
    Bool × SrvState :=
  if redisClientExists st now clientId then (true, refreshClientId ttl st now clientId)
  else (false, st)

/-- The freshly minted id `client-${Date.now()}-${Math.random()...}` of
`AccessControlService.generateClientId`; the random suffix is a parameter. -/
def mintClientId (now : Nat) (rand : String) : String :=
  "client-" ++ toString now ++ "-" ++ rand

/-- Model of `AccessControlService.generateClientId`: store metadata plus creation
time under the minted id and set its expiration to `now + ttl`. -/
def generateClientId (ttl : Nat) (st : SrvState) (now : Nat) (rand : String)
    (metadata : List (String × String)) : String × SrvState :=
  let clientId := mintClientId now rand
  let record : ClientRecord := { createdAt := now, expireAt := now + ttl, metadata := metadata }
  (clientId, { st with clientsDb := setFun st.clientsDb clientId (some record) })

/-- Input `rules` object accepted by `AccessControlService.createChannel`. -/
structure ChannelRulesInput where
  allowedClientIds : Option (List String) := none
  allowedPatterns : Option (List String) := none
  maxSubscribers : Option Nat := none
  isPublic : Bool := false
deriving DecidableEq, Repr

/-- Model of `AccessControlService.createChannel`: serialise the rules with defaults
(`[]`, `[]`, `"0"`, `"0"`) into the `channel:<name>:rules` hash. -/
def createChannel (st : SrvState) (ch : String) (rules : ChannelRulesInput) : SrvState :=
  let stored : RulesHash :=
    { allowedClientIds := some (rules.allowedClientIds.getD [])
      allowedPatterns := some (rules.allowedPatterns.getD [])
      maxSubscribers := some (toString (rules.maxSubscribers.getD 0))
      isPublic := some (if rules.isPublic then "1" else "0") }
  { st with channelRules := setFun st.channelRules ch (some stored) }

/-- Model of `AccessControlService.revokeChannelAccess`: filter the client out of
`allowedClientIds` and `hset` only that field back (the other fields of the
hash are untouched by the merge).  The TS `if (!rules) throw` guard is dead
code: `hgetall` returns `{}` for a missing key, which is truthy. -/
def revokeChannelAccess (st : SrvState) (clientId ch : String) : SrvState :=
  let rules := hgetallRules st ch
  let updated := (rules.allowedClientIds.getD []).filter (fun y => !(y == clientId))
  { st with channelRules :=
      setFun st.channelRules ch (some { rules with allowedClientIds := some updated }) }

/-- Model of `validateChannel` (used by the route handlers):
`redis.exists("channel:" ++ ch ++ ":rules")`. -/
def validateChannel (st : SrvState) (ch : String) : Bool :=
  (st.channelRules ch).isSome

/-! Section: SubscriptionService (`src/services/subscription.service.ts`) -/

/-- Model of `SubscriptionService.subscribe`: `sadd` into both directions of the
subscription index. -/
def subscribe (st : SrvState) (clientId ch : String) : SrvState :=
  { st with
    clientSubs := setFun st.clientSubs clientId (saddL (st.clientSubs clientId) ch)
    channelSubs := setFun st.channelSubs ch (saddL (st.channelSubs ch) clientId) }

/-- Model of `SubscriptionService.unsubscribe`: `srem` from both directions. -/
def unsubscribe (st : SrvState) (clientId ch : String) : SrvState :=
  { st with
    clientSubs := setFun st.clientSubs clientId (sremL (st.clientSubs clientId) ch)
    channelSubs := setFun st.channelSubs ch (sremL (st.channelSubs ch) clientId) }

/-! Section: NotificationService (`src/services/notification.service.ts`) -/

/-- Model of `NotificationService.storeNotification`:
`lpush` the notification onto `notification:<channel>`, then `ltrim key 0 999`
(keep the most recent 1000). -/
def storeNotification (st : SrvState) (n : NotificationMessage) : SrvState :=
  { st with channelNotifs :=
      setFun st.channelNotifs n.channel ((n :: st.channelNotifs n.channel).take 1000) }

/-- Redis `LRANGE key 0 stop` on a list: a negative `stop` counts from the end
of the list (`-1` is the last element); the result is empty when the effective
stop index is negative, and capped at the list length otherwise. -/
def lrangeFromZero (l : List α) (stop : Int) : List α :=
  let stop' : Int := if stop < 0 then (l.length : Int) + stop else stop
  if stop' < 0 then [] else l.take (stop'.toNat + 1)

/-- Model of `NotificationService.getNotifications`:
`lrange("notification:" ++ ch, 0, limit - 1)`. -/
def getNotifications (st : SrvState) (ch : String) (limit : Int) :
    List NotificationMessage :=
  lrangeFromZero (st.channelNotifs ch) (limit - 1)

/-! Section: WebSocketManager (the variant constructed by `src/index.ts` with the
`SubscriptionService`; subscribe/unsubscribe control protocol and broadcast) -/

/-- Outbound WebSocket frames sent by the manager. -/
inductive WsFrame where
  | connection (clientId : String)
  | subscriptionAck (action ch : String)
  | notificationMsg (ch : String) (data : NotificationMessage)
  | errorMsg (message : String)
deriving DecidableEq, Repr

/-- Model of `client.subscribedChannels.add(channel)` on the live connection. -/
def connAddChannel (st : SrvState) (clientId ch : String) : SrvState :=
  match st.conns clientId with
  | some c =>
      let c' : Conn := { c with subscribedChannels := saddL c.subscribedChannels ch }
      { st with conns := setFun st.conns clientId (some c') }
  | none => st

/-- Model of `client.subscribedChannels.delete(channel)` on the live connection. -/
def connRemoveChannel (st : SrvState) (clientId ch : String) : SrvState :=
  match st.conns clientId with
  | some c =>
      let c' : Conn := { c with subscribedChannels := sremL c.subscribedChannels ch }
      { st with conns := setFun st.conns clientId (some c') }
  | none => st

/-- Model of `WebSocketManager.handleSubscription`: the channel-access check runs
before the action dispatch, so it guards `unsubscribe` as well as
`subscribe`; an unknown action falls through with no reply. -/
def handleSubscription (rt : RegexTest) (st : SrvState) (clientId action ch : String) :
    SrvState × List (String × WsFrame) :=
  if hasChannelAccess rt st clientId ch = false then
    (st, [(clientId, .errorMsg ("Access denied to channel: " ++ ch))])
  else if action = "subscribe" then
    (connAddChannel (subscribe st clientId ch) clientId ch,
     [(clientId, .subscriptionAck "subscribed" ch)])
  else if action = "unsubscribe" then
    (connRemoveChannel (unsubscribe st clientId ch) clientId ch,
     [(clientId, .subscriptionAck "unsubscribed" ch)])
  else (st, [])

/-- One iteration of the fan-out loop in
`WebSocketManager.broadcastNotification`: re-check access, evict on failure,
otherwise deliver to the live open connection if there is one. -/
def bnStep (rt : RegexTest) (ch : String) (data : NotificationMessage)
    (acc : SrvState × List (String × WsFrame)) (clientId : String) :
    SrvState × List (String × WsFrame) :=
  if hasChannelAccess rt acc.1 clientId ch then
    match acc.1.conns clientId with
    | some c =>
        if c.isOpen then (acc.1, acc.2 ++ [(clientId, .notificationMsg ch data)]) else acc
    | none => acc
  else (unsubscribe acc.1 clientId ch, acc.2)

/-- Model of `WebSocketManager.broadcastNotification`: snapshot the channel's
subscriber set, then run the fan-out loop.  The second component collects the
`ws.send` calls in order as (recipient, frame) pairs. -/
def broadcastNotification (rt : RegexTest) (st : SrvState) (ch : String)
    (data : NotificationMessage) : SrvState × List (String × WsFrame) :=
  (st.channelSubs ch).foldl (bnStep rt ch data) (st, [])

/-! Section: HTTP route handlers (`src/index.ts`) -/

/-- Result of `POST /api/clients` (status code, returned client id). -/
structure CreateClientResult where
  status : Nat
  clientId : String
deriving DecidableEq, Repr

/-- Model of the `POST /api/clients` handler: an empty requested id is falsy in JS and is
treated as absent; a valid requested id is returned as-is (200) with its
expiration refreshed; otherwise a fresh id is minted and stored (201). -/
def postClients (ttl : Nat) (st : SrvState) (now : Nat) (rand : String)
    (requestedId : Option String) (metadata : List (String × String)) :
    CreateClientResult × SrvState :=
  let cid := requestedId.getD ""
  if cid = "" then
    let (newId, st') := generateClientId ttl st now rand metadata
    ({ status := 201, clientId := newId }, st')
  else
    let (ok, st1) := validateClientId ttl st now cid
    if ok then
      ({ status := 200, clientId := cid }, refreshClientId ttl st1 now cid)
    else
      let (newId, st') := generateClientId ttl st1 now rand metadata
      ({ status := 201, clientId := newId }, st')

/-- Result of `POST /api/channels/:channel/access/:clientId`. -/
inductive GrantResult where
  | notFound
  | publicChannel
  | granted (ch clientId : String)
deriving DecidableEq, Repr

/-- HTTP status of a grant-access outcome (404 / 400 / 200 with
`{channel, clientId, accessGranted: true}`). -/
def GrantResult.statusCode : GrantResult → Nat
  | .notFound => 404
  | .publicChannel => 400
  | .granted _ _ => 200

/-- The allow-list after a grant: the client is appended only if absent. -/
def grantList (allowed : List String) (clientId : String) : List String :=
  if clientId ∈ allowed then allowed else allowed ++ [clientId]

/-- The store step of the grant handler: rewrite the rules hash with the
client appended to `allowedClientIds`, or leave the state alone if the client
is already listed. -/
def grantStore (st : SrvState) (ch clientId : String) (rules : RulesHash) : SrvState :=
  if clientId ∈ rules.allowedClientIds.getD [] then st
  else
    let rules' : RulesHash :=
      { rules with allowedClientIds := some (rules.allowedClientIds.getD [] ++ [clientId]) }
    { st with channelRules := setFun st.channelRules ch (some rules') }

/-- Model of the `POST /api/channels/:channel/access/:clientId` handler: 404 when the
channel has no rules record, 400 when it is public; otherwise add the client
to `allowedClientIds` if absent (rewriting the full hash) and subscribe the
client to the channel. -/
def grantAccessHandler (st : SrvState) (ch clientId : String) : GrantResult × SrvState :=
  if validateChannel st ch = false then (.notFound, st)
  else
    let rules := hgetallRules st ch
    if rules.isPublic = some "1" then (.publicChannel, st)
    else (.granted ch clientId, subscribe (grantStore st ch clientId rules) clientId ch)

/-- Result of `POST /api/channels`. -/
inductive CreateChannelResult where
  | missingName
  | conflict
  | created (ch : String) (rules : ChannelRulesInput)
deriving DecidableEq, Repr

/-- Model of the `POST /api/channels` handler: 400 when the name is missing (falsy), 409
Conflict when a rules record already exists, 201 otherwise. -/
def createChannelHandler (st : SrvState) (ch : String) (rules : Option ChannelRulesInput) :
    CreateChannelResult × SrvState :=
  if ch = "" then (.missingName, st)
  else if validateChannel st ch then (.conflict, st)
  else (.created ch (rules.getD {}), createChannel st ch (rules.getD {}))

/-- Result of `DELETE /api/channels/:channel`. -/
inductive DeleteChannelResult where
  | missingName
  | notFound
  | deleted (ch : String)
deriving DecidableEq, Repr

/-- One step of the subscriber purge loop in the delete-channel handler:
`srem("client-subscriptions:" ++ clientId, channel)`. -/
def purgeStep (ch : String) (s : SrvState) (clientId : String) : SrvState :=
  { s with clientSubs := setFun s.clientSubs clientId (sremL (s.clientSubs clientId) ch) }

/-- First step of channel deletion: `del("channel:" ++ ch ++ ":rules")`. -/
def delChRules (st : SrvState) (ch : String) : SrvState :=
  { st with channelRules := setFun st.channelRules ch none }

/-- Second step of channel deletion: run the subscriber purge loop over the
members of `subscription:<channel>`. -/
def delChPurged (st : SrvState) (ch : String) : SrvState :=
  ((delChRules st ch).channelSubs ch).foldl (purgeStep ch) (delChRules st ch)

/-- Final state of channel deletion: additionally `del` the channel's own
subscriber set and its notification list. -/
def delChFinal (st : SrvState) (ch : String) : SrvState :=
  let st3 := { delChPurged st ch with channelSubs := setFun (delChPurged st ch).channelSubs ch [] }
  { st3 with channelNotifs := setFun st3.channelNotifs ch [] }

/-- Model of the `DELETE /api/channels/:channel` handler: 404 when the rules record is
absent; otherwise delete the rules, remove the channel from each subscriber's
channel set, delete the channel's subscriber set and its history log. -/
def deleteChannelHandler (st : SrvState) (ch : String) : DeleteChannelResult × SrvState :=
  if ch = "" then (.missingName, st)
  else if validateChannel st ch = false then (.notFound, st)
  else (.deleted ch, delChFinal st ch)

/-! Section: Helper lemmas -/

/-- An element freshly `sadd`ed is a member of the set. -/
lemma mem_saddL (l : List String) (x : String) : x ∈ saddL l x := by
  unfold saddL
  split
  · assumption
  · simp

/-- Removal via `srem` really removes the element. -/
lemma not_mem_sremL (l : List String) (x : String) : x ∉ sremL l x := by
  unfold sremL
  intro hx
  rcases List.mem_filter.mp hx with ⟨-, hpx⟩
  simp at hpx

/-- Membership after `srem` implies membership before. -/
lemma mem_of_mem_sremL {l : List String} {x y : String} (h : y ∈ sremL l x) : y ∈ l :=
  (List.mem_filter.mp h).1

/-- The refresh operation neither creates nor deletes client records. -/
lemma refreshClientId_isSome (ttl : Nat) (st : SrvState) (now : Nat) (cid c : String) :
    ((refreshClientId ttl st now cid).clientsDb c).isSome = (st.clientsDb c).isSome := by
  unfold refreshClientId
  cases h : st.clientsDb cid with
  | none => rfl
  | some r =>
      by_cases hlt : now < r.expireAt
      · simp only [hlt, if_true, setFun]
        by_cases hc : c = cid
        · subst hc; simp [h]
        · simp [hc]
      · simp [hlt]

/-! Section: Claims about the access-control service -/

/-- C4: For every clientId and every channel that has a stored policy
record, `hasChannelAccess` returns true iff the channel is public, or the
client is in `allowedClientIds`, or some pattern in `allowedPatterns` matches
the client id. -/
theorem hasChannelAccess_iff (rt : RegexTest) (st : SrvState) (clientId ch : String)
    (rules : RulesHash) (h : st.channelRules ch = some rules) :
    hasChannelAccess rt st clientId ch = true ↔
      (rules.isPublic = some "1" ∨ clientId ∈ rules.allowedClientIds.getD []
        ∨ ∃ p ∈ rules.allowedPatterns.getD [], rt p clientId = true) := by
  unfold hasChannelAccess hgetallRules
  rw [h]
  by_cases h1 : rules.isPublic = some "1" <;>
    by_cases h2 : clientId ∈ rules.allowedClientIds.getD [] <;>
      simp [h1, h2, List.any_eq_true]

/-- Concrete witness state for C4: a private channel with allow-list `["a"]`. -/
def w4st : SrvState :=
  createChannel emptySrvState "vip" { allowedClientIds := some ["a"] }

/-- The rules record stored for `w4st`'s channel `"vip"`. -/
def w4rules : RulesHash :=
  { allowedClientIds := some ["a"], allowedPatterns := some []
    maxSubscribers := some "0", isPublic := some "0" }

/-- A concrete regex oracle that matches nothing. -/
def rtNone : RegexTest := fun _ _ => false

/-- Witness for C4 at the concrete channel `"vip"` and client `"a"`. -/
theorem hasChannelAccess_iff_witness :
    w4st.channelRules "vip" = some w4rules ∧
    (hasChannelAccess rtNone w4st "a" "vip" = true ↔
      (w4rules.isPublic = some "1" ∨ "a" ∈ w4rules.allowedClientIds.getD []
        ∨ ∃ p ∈ w4rules.allowedPatterns.getD [], rtNone p "a" = true)) :=
  ⟨by decide, hasChannelAccess_iff rtNone w4st "a" "vip" w4rules (by decide)⟩

/-- C10: For a channel name with no stored policy record,
`hasChannelAccess` denies access (no error is possible: the function is
total): the retrieved rules record is the empty one, treated as a non-public
channel with empty allow-list and empty pattern list. -/
theorem hasChannelAccess_no_record (rt : RegexTest) (st : SrvState) (clientId ch : String)
    (h : st.channelRules ch = none) :
    hgetallRules st ch = {} ∧ hasChannelAccess rt st clientId ch = false := by
  refine ⟨by simp [hgetallRules, h], ?_⟩
  unfold hasChannelAccess hgetallRules
  rw [h]
  simp [RulesHash.allowedClientIds, RulesHash.allowedPatterns, RulesHash.isPublic]

/-- Witness for C10 on the empty state and channel `"nochan"`. -/
theorem hasChannelAccess_no_record_witness :
    emptySrvState.channelRules "nochan" = none ∧
    (hgetallRules emptySrvState "nochan" = {}
      ∧ hasChannelAccess rtNone emptySrvState "c" "nochan" = false) :=
  ⟨rfl, hasChannelAccess_no_record rtNone emptySrvState "c" "nochan" rfl⟩

/-- C5: the function `validateClientId` returns true for a live record and, as a side
effect, resets its expiration to `now + ttl` (leaving all other client
records unchanged), so the id stays valid until `now + ttl` — in particular
past its original deadline; for an id with no live record it returns false
and leaves the state untouched. -/
theorem validateClientId_spec (ttl now : Nat) (clientId : String) (st : SrvState) :
    (∀ r, st.clientsDb clientId = some r → now < r.expireAt →
       (validateClientId ttl st now clientId).1 = true
       ∧ (validateClientId ttl st now clientId).2.clientsDb clientId
           = some { r with expireAt := now + ttl }
       ∧ (∀ c, c ≠ clientId →
           (validateClientId ttl st now clientId).2.clientsDb c = st.clientsDb c)
       ∧ (∀ t, t < now + ttl →
           redisClientExists (validateClientId ttl st now clientId).2 t clientId = true))
    ∧ (redisClientExists st now clientId = false →
        validateClientId ttl st now clientId = (false, st)) := by
  constructor
  · intro r hr hlt
    have hex : redisClientExists st now clientId = true := by
      simp [redisClientExists, hr, hlt]
    have hdb : (validateClientId ttl st now clientId).2.clientsDb clientId
        = some { r with expireAt := now + ttl } := by
      simp [validateClientId, hex, refreshClientId, hr, hlt, setFun]
    refine ⟨by simp [validateClientId, hex], hdb, ?_, ?_⟩
    · intro c hc
      simp [validateClientId, hex, refreshClientId, hr, hlt, setFun, hc]
    · intro t ht
      simp [redisClientExists, hdb, ht]
  · intro hne
    simp [validateClientId, hne]

/-- Concrete witness state for C5: client `"c9"` created at 0, expiring at 5. -/
def w5st : SrvState :=
  { emptySrvState with clientsDb := setFun emptySrvState.clientsDb "c9" (some ⟨0, 5, []⟩) }

/-- Witness for C5: validating `"c9"` at time 4 (just before its deadline 5)
succeeds, and the id is still live at time 100, well past the original
deadline (with the default 7-day TTL of 604800 seconds). -/
theorem validateClientId_spec_witness :
    (w5st.clientsDb "c9" = some ⟨0, 5, []⟩ ∧ 4 < 5)
    ∧ (validateClientId 604800 w5st 4 "c9").1 = true
    ∧ redisClientExists (validateClientId 604800 w5st 4 "c9").2 100 "c9" = true := by
  refine ⟨⟨by decide, by decide⟩, ?_, ?_⟩
  · exact ((validateClientId_spec 604800 4 "c9" w5st).1 ⟨0, 5, []⟩ (by decide) (by decide)).1
  · exact ((validateClientId_spec 604800 4 "c9" w5st).1 ⟨0, 5, []⟩ (by decide)
      (by decide)).2.2.2 100 (by decide)

/-- C6: The create-client operation (`POST /api/clients`): a requested id
that is currently valid is returned unchanged with status 200 and no record
is created or destroyed; otherwise (no requested id, an empty one, or an
invalid one) a fresh id — timestamp concatenated with the random suffix — is
minted and stored with expiration `now + ttl`, status 201. -/
theorem postClients_spec (ttl now : Nat) (rand : String) (st : SrvState)
    (metadata : List (String × String)) (requestedId : Option String) :
    (∀ cid, requestedId = some cid → cid ≠ "" → redisClientExists st now cid = true →
       (postClients ttl st now rand requestedId metadata).1 = ⟨200, cid⟩
       ∧ ∀ c, ((postClients ttl st now rand requestedId metadata).2.clientsDb c).isSome
              = (st.clientsDb c).isSome)
    ∧ ((∀ cid, requestedId = some cid → cid = "" ∨ redisClientExists st now cid = false) →
       (postClients ttl st now rand requestedId metadata).1 = ⟨201, mintClientId now rand⟩
       ∧ (postClients ttl st now rand requestedId metadata).2.clientsDb (mintClientId now rand)
           = some ⟨now, now + ttl, metadata⟩) := by
  cases requestedId with
  | none =>
      refine ⟨by intro cid h; exact absurd h (by simp), ?_⟩
      intro _
      constructor
      · simp [postClients, generateClientId]
      · simp [postClients, generateClientId, setFun]
  | some cid =>
      constructor
      · intro cid' heq hne hex
        have hcid : cid' = cid := by injection heq with h; exact h.symm
        subst hcid
        constructor
        · simp [postClients, hne, validateClientId, hex]
        · intro c
          simp [postClients, hne, validateClientId, hex, refreshClientId_isSome]
      · intro hall
        rcases hall cid rfl with hemp | hinv
        · subst hemp
          constructor
          · simp [postClients, generateClientId]
          · simp [postClients, generateClientId, setFun]
        · by_cases hemp : cid = ""
          · subst hemp
            constructor
            · simp [postClients, generateClientId]
            · simp [postClients, generateClientId, setFun]
          · constructor
            · simp [postClients, hemp, validateClientId, hinv, generateClientId]
            · simp [postClients, hemp, validateClientId, hinv, generateClientId, setFun]

/-- Concrete witness state for C6: client `"c1"` created at 0, expiring at 10. -/
def w6st : SrvState :=
  { emptySrvState with clientsDb := setFun emptySrvState.clientsDb "c1" (some ⟨0, 10, []⟩) }

/-- Witness for C6: with client `"c1"` live (expires at 10, `now = 3`), the
valid-requested-id branch returns 200/`"c1"`; with no requested id the mint
branch stores a fresh record under `client-3-xyz`. -/
theorem postClients_spec_witness :
    (w6st.clientsDb "c1" = some ⟨0, 10, []⟩ ∧ redisClientExists w6st 3 "c1" = true)
    ∧ (postClients 604800 w6st 3 "xyz" (some "c1") []).1 = ⟨200, "c1"⟩
    ∧ (postClients 604800 w6st 3 "xyz" none []).1 = ⟨201, mintClientId 3 "xyz"⟩
    ∧ (postClients 604800 w6st 3 "xyz" none []).2.clientsDb (mintClientId 3 "xyz")
        = some ⟨3, 3 + 604800, []⟩ := by
  refine ⟨⟨by decide, by decide⟩, ?_, ?_, ?_⟩
  · exact ((postClients_spec 604800 3 "xyz" w6st [] (some "c1")).1 "c1" rfl (by decide)
      (by decide)).1
  · exact ((postClients_spec 604800 3 "xyz" w6st [] none).2 (by simp)).1
  · exact ((postClients_spec 604800 3 "xyz" w6st [] none).2 (by simp)).2

/-- The rules record produced by `revokeChannelAccess`: the same record with
the client filtered out of `allowedClientIds`, all other fields untouched. -/
def revokedRules (rules : RulesHash) (clientId : String) : RulesHash :=
  { rules with
      allowedClientIds := some ((rules.allowedClientIds.getD []).filter (fun y => !(y == clientId))) }

/-- C9: the function `revokeChannelAccess` rewrites only the `allowedClientIds` field
of the channel's rules record — `isPublic`, `allowedPatterns` and
`maxSubscribers` are untouched, as are all other channels — so a client whose
id matches one of the channel's patterns still has access after the revoke. -/
theorem revokeChannelAccess_frame (rt : RegexTest) (st : SrvState) (clientId ch : String)
    (rules : RulesHash) (h : st.channelRules ch = some rules) :
    (revokeChannelAccess st clientId ch).channelRules ch = some (revokedRules rules clientId)
    ∧ (hgetallRules (revokeChannelAccess st clientId ch) ch).isPublic = rules.isPublic
    ∧ (hgetallRules (revokeChannelAccess st clientId ch) ch).allowedPatterns
        = rules.allowedPatterns
    ∧ (hgetallRules (revokeChannelAccess st clientId ch) ch).maxSubscribers
        = rules.maxSubscribers
    ∧ (∀ ch', ch' ≠ ch →
        (revokeChannelAccess st clientId ch).channelRules ch' = st.channelRules ch')
    ∧ (∀ p ∈ rules.allowedPatterns.getD [], rt p clientId = true →
        hasChannelAccess rt (revokeChannelAccess st clientId ch) clientId ch = true) := by
  have hrw : (revokeChannelAccess st clientId ch).channelRules ch
      = some (revokedRules rules clientId) := by
    simp [revokeChannelAccess, hgetallRules, h, setFun, revokedRules]
  refine ⟨hrw, by simp [hgetallRules, hrw, revokedRules], by simp [hgetallRules, hrw, revokedRules],
          by simp [hgetallRules, hrw, revokedRules], ?_, ?_⟩
  · intro ch' hch'
    simp [revokeChannelAccess, setFun, hch']
  · intro p hp hrt
    unfold hasChannelAccess hgetallRules
    rw [hrw]
    simp only [Option.getD_some]
    split
    · rfl
    · split
      · rfl
      · exact List.any_eq_true.mpr ⟨p, hp, hrt⟩

/-- Concrete regex oracle for the C9 witness: pattern `"u"` matches
`"user-1"`. -/
def rtU : RegexTest := fun p c => p == "u" && c == "user-1"

/-- Concrete witness state for C9: private channel `"priv"` allowing
`"user-1"` both explicitly and via pattern `"u"`. -/
def w9st : SrvState :=
  createChannel emptySrvState "priv"
    { allowedClientIds := some ["user-1"], allowedPatterns := some ["u"] }

/-- The rules record stored for `w9st`'s channel `"priv"`. -/
def w9rules : RulesHash :=
  { allowedClientIds := some ["user-1"], allowedPatterns := some ["u"]
    maxSubscribers := some "0", isPublic := some "0" }

/-- Witness for C9: after revoking `"user-1"` from `"priv"` the pattern
fields survive and pattern-based access still holds. -/
theorem revokeChannelAccess_frame_witness :
    (w9st.channelRules "priv" = some w9rules
      ∧ "u" ∈ w9rules.allowedPatterns.getD [] ∧ rtU "u" "user-1" = true)
    ∧ (hgetallRules (revokeChannelAccess w9st "user-1" "priv") "priv").allowedPatterns
        = w9rules.allowedPatterns
    ∧ hasChannelAccess rtU (revokeChannelAccess w9st "user-1" "priv") "user-1" "priv" = true := by
  refine ⟨⟨by decide, by decide, by decide⟩, ?_, ?_⟩
  · exact (revokeChannelAccess_frame rtU w9st "user-1" "priv" w9rules (by decide)).2.2.1
  · exact (revokeChannelAccess_frame rtU w9st "user-1" "priv" w9rules
      (by decide)).2.2.2.2.2 "u" (by decide) (by decide)

/-! Section: C3: the history log -/

/-- Taking `k` of an already-truncated suffix is the same as truncating the
whole append. -/
lemma take_append_take (a b : List α) (k : Nat) :
    (a ++ b.take k).take k = (a ++ b).take k := by
  rw [List.take_append_eq_append_take, List.take_append_eq_append_take, List.take_take]
  have hmin : min (k - a.length) k = k - a.length := Nat.min_eq_left (Nat.sub_le _ _)
  rw [hmin]

/-- Effect of `storeNotification` on the stored log of its own channel. -/
lemma storeNotification_log (st : SrvState) (n : NotificationMessage) :
    (storeNotification st n).channelNotifs n.channel
      = (n :: st.channelNotifs n.channel).take 1000 := by
  simp [storeNotification, setFun]

/-- Folding a sequence of publishes over the store keeps the channel's log
equal to the reversed publish sequence, truncated to the 1000 most recent. -/
lemma foldl_store_log (ch : String) :
    ∀ (ns : List NotificationMessage) (st : SrvState),
      (∀ n ∈ ns, n.channel = ch) →
      (st.channelNotifs ch).length ≤ 1000 →
      (ns.foldl storeNotification st).channelNotifs ch
        = (ns.reverse ++ st.channelNotifs ch).take 1000 := by
  intro ns
  induction ns with
  | nil =>
      intro st _ hlen
      simpa using (List.take_of_length_le hlen).symm
  | cons n rest ih =>
      intro st hch hlen
      have hn : n.channel = ch := hch n (by simp)
      have hlog : (storeNotification st n).channelNotifs ch
          = (n :: st.channelNotifs ch).take 1000 := by
        rw [← hn, storeNotification_log, hn]
      have hlen' : ((storeNotification st n).channelNotifs ch).length ≤ 1000 := by
        rw [hlog]
        simp
      have hrest : ∀ m ∈ rest, m.channel = ch := fun m hm => hch m (by simp [hm])
      calc ((n :: rest).foldl storeNotification st).channelNotifs ch
          = (rest.foldl storeNotification (storeNotification st n)).channelNotifs ch := rfl
        _ = (rest.reverse ++ (storeNotification st n).channelNotifs ch).take 1000 :=
            ih (storeNotification st n) hrest hlen'
        _ = (rest.reverse ++ (n :: st.channelNotifs ch).take 1000).take 1000 := by rw [hlog]
        _ = (rest.reverse ++ (n :: st.channelNotifs ch)).take 1000 := take_append_take ..
        _ = ((n :: rest).reverse ++ st.channelNotifs ch).take 1000 := by
            simp [List.append_assoc]

/-- C3 counterexample: `read(channel, 0)` does not return at most
`min(0, stored)` = 0 entries: `lrange key 0 -1` is the whole list, so with
one stored notification the read returns that notification. -/
theorem getNotifications_limit_zero_counterexample :
    getNotifications (storeNotification emptySrvState ⟨"n1", "demo", "hi", 7⟩) "demo" 0
      = [⟨"n1", "demo", "hi", 7⟩]
    ∧ ¬ ((getNotifications (storeNotification emptySrvState ⟨"n1", "demo", "hi", 7⟩)
           "demo" 0).length ≤ min (Int.toNat 0) 1) := by
  constructor
  · rfl
  · intro hle
    have h1 : (getNotifications (storeNotification emptySrvState ⟨"n1", "demo", "hi", 7⟩)
        "demo" 0).length = 1 := rfl
    have h2 : min (Int.toNat 0) 1 = 0 := rfl
    rw [h1, h2] at hle
    exact absurd hle (by decide)

/-- C3 (amended): Starting from an empty log, after appending the
sequence `ns` (in publish order) the channel's History Log is exactly the
reversed sequence truncated to the 1000 most recent (newest at the head), so
its length is `min n 1000`; for every read limit ≥ 1, `getNotifications`
returns the first `limit` entries of the stored log (hence at most
`min(limit, stored)` entries, most recent first) — the bound fails for
`limit = 0`, which Redis treats as `lrange 0 -1`; and after 1500 appends
exactly 1000 remain, the oldest 500 evicted. -/
theorem history_log_spec (st : SrvState) (ch : String) (ns : List NotificationMessage)
    (hempty : st.channelNotifs ch = []) (hch : ∀ n ∈ ns, n.channel = ch) :
    (ns.foldl storeNotification st).channelNotifs ch = ns.reverse.take 1000
    ∧ ((ns.foldl storeNotification st).channelNotifs ch).length = min ns.length 1000
    ∧ (∀ limit : Int, 1 ≤ limit →
        getNotifications (ns.foldl storeNotification st) ch limit
          = (ns.reverse.take 1000).take limit.toNat)
    ∧ (ns.length = 1500 →
        (ns.foldl storeNotification st).channelNotifs ch = (ns.drop 500).reverse
        ∧ ((ns.foldl storeNotification st).channelNotifs ch).length = 1000) := by
  have hmain : (ns.foldl storeNotification st).channelNotifs ch = ns.reverse.take 1000 := by
    have := foldl_store_log ch ns st hch (by simp [hempty])
    simpa [hempty] using this
  have hlen : ((ns.foldl storeNotification st).channelNotifs ch).length = min ns.length 1000 := by
    rw [hmain]
    simp [List.length_take, Nat.min_comm]
  refine ⟨hmain, hlen, ?_, ?_⟩
  · intro limit hlim
    unfold getNotifications lrangeFromZero
    rw [hmain]
    have hstop : ¬ (limit - 1 < 0) := by omega
    have hstop' : ¬ ((limit - 1 : Int) < 0) := hstop
    simp only [if_neg hstop']
    have htn : (limit - 1).toNat + 1 = limit.toNat := by omega
    rw [htn]
  · intro h1500
    have hdrop : ns.reverse.take 1000 = (ns.drop 500).reverse := by
      rw [List.take_reverse, h1500]
    refine ⟨by rw [hmain, hdrop], ?_⟩
    rw [hlen, h1500]
    decide

/-- Concrete publish sequence for the C3 witness. -/
def w3msgs : List NotificationMessage :=
  [⟨"a", "demo", "m1", 1⟩, ⟨"b", "demo", "m2", 2⟩, ⟨"c", "demo", "m3", 3⟩]

/-- Witness for C3 (amended): three publishes to `"demo"` followed by a read
with limit 2 return the two most recent, newest first. -/
theorem history_log_spec_witness :
    (emptySrvState.channelNotifs "demo" = []
      ∧ ∀ n ∈ w3msgs, n.channel = "demo")
    ∧ (w3msgs.foldl storeNotification emptySrvState).channelNotifs "demo"
        = w3msgs.reverse.take 1000
    ∧ getNotifications (w3msgs.foldl storeNotification emptySrvState) "demo" 2
        = (w3msgs.reverse.take 1000).take (Int.toNat 2) := by
  refine ⟨⟨rfl, by decide⟩, ?_, ?_⟩
  · exact (history_log_spec emptySrvState "demo" w3msgs rfl (by decide)).1
  · exact (history_log_spec emptySrvState "demo" w3msgs rfl (by decide)).2.2.1 2 (by decide)

/-! Section: C7: grant access -/

/-- C7: the grant-access endpoint returns 404 NotFound when
the channel has no policy record, 400 BadRequest when the channel is public;
otherwise the client ends up in `allowedClientIds` exactly once (no duplicate
entry is added), the subscription record for (client, channel) is created in
both directions, and the response is `{channel, clientId, accessGranted:
true}` (status 200). -/
theorem grantAccessHandler_spec (st : SrvState) (ch clientId : String) :
    (st.channelRules ch = none →
        grantAccessHandler st ch clientId = (.notFound, st)
        ∧ GrantResult.statusCode .notFound = 404)
    ∧ (∀ rules, st.channelRules ch = some rules → rules.isPublic = some "1" →
        grantAccessHandler st ch clientId = (.publicChannel, st)
        ∧ GrantResult.statusCode .publicChannel = 400)
    ∧ (∀ rules, st.channelRules ch = some rules → rules.isPublic ≠ some "1" →
        (grantAccessHandler st ch clientId).1 = .granted ch clientId
        ∧ GrantResult.statusCode (grantAccessHandler st ch clientId).1 = 200
        ∧ clientId ∈
            (hgetallRules (grantAccessHandler st ch clientId).2 ch).allowedClientIds.getD []
        ∧ ((rules.allowedClientIds.getD []).count clientId ≤ 1 →
            ((hgetallRules (grantAccessHandler st ch clientId).2 ch).allowedClientIds.getD
              []).count clientId = 1)
        ∧ clientId ∈ (grantAccessHandler st ch clientId).2.channelSubs ch
        ∧ ch ∈ (grantAccessHandler st ch clientId).2.clientSubs clientId) := by
  refine ⟨?_, ?_, ?_⟩
  · intro h
    exact ⟨by simp [grantAccessHandler, validateChannel, h], rfl⟩
  · intro rules h hpub
    exact ⟨by simp [grantAccessHandler, validateChannel, h, hgetallRules, hpub], rfl⟩
  · intro rules h hpub
    have hres : grantAccessHandler st ch clientId
        = (.granted ch clientId, subscribe (grantStore st ch clientId rules) clientId ch) := by
      simp [grantAccessHandler, validateChannel, h, hgetallRules, hpub, grantStore]
    have hrules : (subscribe (grantStore st ch clientId rules) clientId ch).channelRules ch
        = (grantStore st ch clientId rules).channelRules ch := rfl
    have hstore : (hgetallRules (grantStore st ch clientId rules) ch).allowedClientIds.getD []
        = grantList (rules.allowedClientIds.getD []) clientId := by
      unfold grantStore grantList
      by_cases hin : clientId ∈ rules.allowedClientIds.getD []
      · simp [hin, hgetallRules, h]
      · simp [hin, hgetallRules, setFun]
    refine ⟨by rw [hres], by rw [hres]; rfl, ?_, ?_, ?_, ?_⟩
    · rw [hres]
      show clientId ∈ (hgetallRules (subscribe (grantStore st ch clientId rules) clientId ch)
        ch).allowedClientIds.getD []
      rw [show hgetallRules (subscribe (grantStore st ch clientId rules) clientId ch) ch
            = hgetallRules (grantStore st ch clientId rules) ch from rfl, hstore]
      unfold grantList
      by_cases hin : clientId ∈ rules.allowedClientIds.getD [] <;> simp [hin]
    · intro hcount
      rw [hres]
      show ((hgetallRules (subscribe (grantStore st ch clientId rules) clientId ch)
        ch).allowedClientIds.getD []).count clientId = 1
      rw [show hgetallRules (subscribe (grantStore st ch clientId rules) clientId ch) ch
            = hgetallRules (grantStore st ch clientId rules) ch from rfl, hstore]
      unfold grantList
      by_cases hin : clientId ∈ rules.allowedClientIds.getD []
      · have hpos : 0 < (rules.allowedClientIds.getD []).count clientId :=
          List.count_pos_iff.mpr hin
        simp only [hin, if_true]
        omega
      · have hzero : (rules.allowedClientIds.getD []).count clientId = 0 :=
          List.count_eq_zero.mpr hin
        simp [hin, List.count_append, hzero]
    · rw [hres]
      simp [subscribe, setFun, mem_saddL]
    · rw [hres]
      simp [subscribe, setFun, mem_saddL]

/-- Witness state for C7: a private channel `"room"` with an empty allow-list. -/
def w7st : SrvState := createChannel emptySrvState "room" {}

/-- The rules record stored for `w7st`'s channel `"room"`. -/
def w7rules : RulesHash :=
  { allowedClientIds := some [], allowedPatterns := some []
    maxSubscribers := some "0", isPublic := some "0" }

/-- Witness for C7: granting `"bob"` access to the private channel `"room"`
responds `granted` and records both the allow-list entry and the
subscription. -/
theorem grantAccessHandler_spec_witness :
    (w7st.channelRules "room" = some w7rules ∧ w7rules.isPublic ≠ some "1")
    ∧ (grantAccessHandler w7st "room" "bob").1 = .granted "room" "bob"
    ∧ "bob" ∈ (grantAccessHandler w7st "room" "bob").2.channelSubs "room"
    ∧ "room" ∈ (grantAccessHandler w7st "room" "bob").2.clientSubs "bob" := by
  refine ⟨⟨by decide, by decide⟩, ?_, ?_, ?_⟩
  · exact ((grantAccessHandler_spec w7st "room" "bob").2.2 w7rules (by decide) (by decide)).1
  · exact ((grantAccessHandler_spec w7st "room" "bob").2.2 w7rules (by decide)
      (by decide)).2.2.2.2.1
  · exact ((grantAccessHandler_spec w7st "room" "bob").2.2 w7rules (by decide)
      (by decide)).2.2.2.2.2

/-! Section: C8: create / delete channel -/

/-- The subscriber purge loop touches only `clientSubs`. -/
lemma purge_foldl_frame (ch : String) :
    ∀ (l : List String) (s : SrvState),
      ((l.foldl (purgeStep ch) s).channelRules = s.channelRules)
      ∧ ((l.foldl (purgeStep ch) s).channelSubs = s.channelSubs)
      ∧ ((l.foldl (purgeStep ch) s).channelNotifs = s.channelNotifs) := by
  intro l
  induction l with
  | nil => intro s; exact ⟨rfl, rfl, rfl⟩
  | cons c rest ih =>
      intro s
      exact ⟨(ih (purgeStep ch s c)).1, (ih (purgeStep ch s c)).2.1,
             (ih (purgeStep ch s c)).2.2⟩

/-- After the purge loop, a client that was in the processed list (or already
purged) no longer has the channel in its subscription set. -/
lemma purge_foldl_removes (ch : String) :
    ∀ (l : List String) (s : SrvState) (cid : String),
      (ch ∉ s.clientSubs cid ∨ cid ∈ l) →
      ch ∉ (l.foldl (purgeStep ch) s).clientSubs cid := by
  intro l
  induction l with
  | nil =>
      intro s cid h
      rcases h with h | h
      · exact h
      · exact absurd h (by simp)
  | cons c rest ih =>
      intro s cid h
      have hstep : ∀ s' cid', ch ∉ s'.clientSubs cid' → ch ∉ (purgeStep ch s' c).clientSubs cid' := by
        intro s' cid' hns
        unfold purgeStep setFun
        by_cases hc : cid' = c
        · subst hc
          simp only [if_pos rfl]
          intro hmem
          exact hns (mem_of_mem_sremL hmem)
        · simpa [hc] using hns
      rcases h with h | h
      · exact ih (purgeStep ch s c) cid (Or.inl (hstep s cid h))
      · rcases List.mem_cons.mp h with rfl | hr
        · refine ih (purgeStep ch s cid) cid (Or.inl ?_)
          unfold purgeStep setFun
          simp only [if_pos rfl]
          exact not_mem_sremL _ _
        · exact ih (purgeStep ch s c) cid (Or.inr hr)

/-- C8: Creating a channel whose name already has a policy record fails
with Conflict (409) and leaves the whole state — in particular the existing
policy — unchanged; deleting an existing channel removes its policy record,
its subscriber set (both directions) and its history log, after which
creating the same name succeeds. -/
theorem channel_create_delete_spec (st : SrvState) (ch : String)
    (input : Option ChannelRulesInput) (hname : ch ≠ "") :
    (∀ rules, st.channelRules ch = some rules →
        createChannelHandler st ch input = (.conflict, st))
    ∧ (∀ rules, st.channelRules ch = some rules →
        (deleteChannelHandler st ch).1 = .deleted ch
        ∧ (deleteChannelHandler st ch).2.channelRules ch = none
        ∧ (deleteChannelHandler st ch).2.channelSubs ch = []
        ∧ (deleteChannelHandler st ch).2.channelNotifs ch = []
        ∧ (∀ cid ∈ st.channelSubs ch, ch ∉ (deleteChannelHandler st ch).2.clientSubs cid)
        ∧ (createChannelHandler (deleteChannelHandler st ch).2 ch input).1
            = .created ch (input.getD {})
        ∧ validateChannel (createChannelHandler (deleteChannelHandler st ch).2 ch input).2 ch
            = true) := by
  constructor
  · intro rules h
    simp [createChannelHandler, hname, validateChannel, h]
  · intro rules h
    have hval : validateChannel st ch = true := by simp [validateChannel, h]
    have hres : deleteChannelHandler st ch
        = (.deleted ch, delChFinal st ch) := by
      simp [deleteChannelHandler, hname, hval, delChFinal, delChPurged, delChRules]
    have hframe : (delChPurged st ch).channelRules = (delChRules st ch).channelRules
        ∧ (delChPurged st ch).channelSubs = (delChRules st ch).channelSubs
        ∧ (delChPurged st ch).channelNotifs = (delChRules st ch).channelNotifs :=
      purge_foldl_frame ch ((delChRules st ch).channelSubs ch) (delChRules st ch)
    have hrules_gone : (delChFinal st ch).channelRules ch = none := by
      have hfin : (delChFinal st ch).channelRules = (delChPurged st ch).channelRules := rfl
      rw [hfin, hframe.1]
      simp [delChRules, setFun]
    have hsubs_gone : (delChFinal st ch).channelSubs ch = [] := by
      simp [delChFinal, setFun]
    have hnotifs_gone : (delChFinal st ch).channelNotifs ch = [] := by
      simp [delChFinal, setFun]
    have hpurged : ∀ cid ∈ st.channelSubs ch, ch ∉ (delChFinal st ch).clientSubs cid := by
      intro cid hcid
      have hsame : (delChRules st ch).channelSubs ch = st.channelSubs ch := rfl
      have : ch ∉ (delChPurged st ch).clientSubs cid := by
        unfold delChPurged
        exact purge_foldl_removes ch _ (delChRules st ch) cid (Or.inr (by rw [hsame]; exact hcid))
      exact this
    have hcreate : (createChannelHandler (delChFinal st ch) ch input).1
        = .created ch (input.getD {}) := by
      simp [createChannelHandler, hname, validateChannel, hrules_gone]
    have hcreate2 : validateChannel (createChannelHandler (delChFinal st ch) ch input).2 ch
        = true := by
      simp [createChannelHandler, hname, validateChannel, hrules_gone, createChannel, setFun]
    rw [hres]
    exact ⟨rfl, hrules_gone, hsubs_gone, hnotifs_gone, hpurged, hcreate, hcreate2⟩

/-- Witness state for C8: channel `"dup"` exists and has one subscriber. -/
def w8st : SrvState :=
  subscribe (createChannel emptySrvState "dup" { isPublic := true }) "alice" "dup"

/-- The rules record stored for `w8st`'s channel `"dup"`. -/
def w8rules : RulesHash :=
  { allowedClientIds := some [], allowedPatterns := some []
    maxSubscribers := some "0", isPublic := some "1" }

/-- Witness for C8 on the concrete channel `"dup"`: re-creation conflicts,
deletion purges, and re-creation after deletion succeeds. -/
theorem channel_create_delete_spec_witness :
    ("dup" ≠ "" ∧ w8st.channelRules "dup" = some w8rules)
    ∧ createChannelHandler w8st "dup" none = (.conflict, w8st)
    ∧ (deleteChannelHandler w8st "dup").1 = .deleted "dup"
    ∧ (deleteChannelHandler w8st "dup").2.channelRules "dup" = none
    ∧ (createChannelHandler (deleteChannelHandler w8st "dup").2 "dup" none).1
        = .created "dup" {} := by
  refine ⟨⟨by decide, by decide⟩, ?_, ?_, ?_, ?_⟩
  · exact (channel_create_delete_spec w8st "dup" none (by decide)).1 w8rules (by decide)
  · exact ((channel_create_delete_spec w8st "dup" none (by decide)).2 w8rules (by decide)).1
  · exact ((channel_create_delete_spec w8st "dup" none (by decide)).2 w8rules (by decide)).2.1
  · exact ((channel_create_delete_spec w8st "dup" none
      (by decide)).2 w8rules (by decide)).2.2.2.2.2.1

/-! Section: C1: broadcast fan-out with per-delivery access re-check -/

/-- Access checks read only the channel-rules table. -/
lemma hasChannelAccess_congr {s s' : SrvState} (h : s.channelRules = s'.channelRules)
    (rt : RegexTest) (cid ch : String) :
    hasChannelAccess rt s cid ch = hasChannelAccess rt s' cid ch := by
  unfold hasChannelAccess hgetallRules
  rw [h]

/-- Unsubscribing removes the client from the channel's subscriber set. -/
lemma unsubscribe_not_mem_channel (st : SrvState) (cid ch : String) :
    cid ∉ (unsubscribe st cid ch).channelSubs ch := by
  simp only [unsubscribe, setFun, if_pos rfl]
  exact not_mem_sremL _ _

/-- Unsubscribing removes the channel from the client's channel set. -/
lemma unsubscribe_not_mem_client (st : SrvState) (cid ch : String) :
    ch ∉ (unsubscribe st cid ch).clientSubs cid := by
  simp only [unsubscribe, setFun, if_pos rfl]
  exact not_mem_sremL _ _

/-- Unsubscribing only ever removes channel-subscriber entries. -/
lemma unsubscribe_sub_channel {st : SrvState} {cid ch x ch' : String}
    (h : x ∈ (unsubscribe st cid ch).channelSubs ch') : x ∈ st.channelSubs ch' := by
  by_cases hch : ch' = ch
  · subst hch
    have heq : (unsubscribe st cid ch').channelSubs ch' = sremL (st.channelSubs ch') cid := by
      simp [unsubscribe, setFun]
    rw [heq] at h
    exact mem_of_mem_sremL h
  · simpa only [unsubscribe, setFun, if_neg hch] using h

/-- Unsubscribing only ever removes client-channel entries. -/
lemma unsubscribe_sub_client {st : SrvState} {cid ch x ch' : String}
    (h : ch' ∈ (unsubscribe st cid ch).clientSubs x) : ch' ∈ st.clientSubs x := by
  by_cases hx : x = cid
  · subst hx
    have heq : (unsubscribe st x ch).clientSubs x = sremL (st.clientSubs x) ch := by
      simp [unsubscribe, setFun]
    rw [heq] at h
    exact mem_of_mem_sremL h
  · simpa only [unsubscribe, setFun, if_neg hx] using h

/-- A fan-out step never changes the rules table or the connection table. -/
lemma bnStep_frame (rt : RegexTest) (ch : String) (data : NotificationMessage)
    (acc : SrvState × List (String × WsFrame)) (cid : String) :
    (bnStep rt ch data acc cid).1.channelRules = acc.1.channelRules
    ∧ (bnStep rt ch data acc cid).1.conns = acc.1.conns := by
  unfold bnStep
  split
  · split
    · split
      · exact ⟨rfl, rfl⟩
      · exact ⟨rfl, rfl⟩
    · exact ⟨rfl, rfl⟩
  · exact ⟨rfl, rfl⟩

/-- A fan-out step on a subscriber without access is exactly the eviction. -/
lemma bnStep_evict (rt : RegexTest) (ch : String) (data : NotificationMessage)
    (acc : SrvState × List (String × WsFrame)) (cid : String)
    (h : hasChannelAccess rt acc.1 cid ch = false) :
    bnStep rt ch data acc cid = (unsubscribe acc.1 cid ch, acc.2) := by
  simp [bnStep, h]

/-- A fan-out step on a subscriber with access and a live open connection is
exactly the delivery. -/
lemma bnStep_deliver (rt : RegexTest) (ch : String) (data : NotificationMessage)
    (acc : SrvState × List (String × WsFrame)) (cid : String) (c : Conn)
    (hA : hasChannelAccess rt acc.1 cid ch = true) (hc : acc.1.conns cid = some c)
    (hopen : c.isOpen = true) :
    bnStep rt ch data acc cid = (acc.1, acc.2 ++ [(cid, .notificationMsg ch data)]) := by
  simp [bnStep, hA, hc, hopen]

/-- A fan-out step either emits nothing or emits one frame, and only to a
subscriber whose access check succeeded. -/
lemma bnStep_outs (rt : RegexTest) (ch : String) (data : NotificationMessage)
    (acc : SrvState × List (String × WsFrame)) (cid : String) :
    (bnStep rt ch data acc cid).2 = acc.2
    ∨ (hasChannelAccess rt acc.1 cid ch = true
        ∧ (bnStep rt ch data acc cid).2 = acc.2 ++ [(cid, .notificationMsg ch data)]) := by
  by_cases hA : hasChannelAccess rt acc.1 cid ch = true
  · cases hc : acc.1.conns cid with
    | none => exact Or.inl (by simp [bnStep, hA, hc])
    | some c =>
        by_cases hopen : c.isOpen = true
        · exact Or.inr ⟨hA, by simp [bnStep, hA, hc, hopen]⟩
        · exact Or.inl (by simp [bnStep, hA, hc, hopen])
  · exact Or.inl (by simp [bnStep, hA])

/-- A fan-out step preserves "this subscriber is already fully evicted". -/
lemma bnStep_preserves_evicted (rt : RegexTest) (ch : String) (data : NotificationMessage)
    (acc : SrvState × List (String × WsFrame)) (cid c' : String)
    (h : cid ∉ acc.1.channelSubs ch ∧ ch ∉ acc.1.clientSubs cid) :
    cid ∉ (bnStep rt ch data acc c').1.channelSubs ch
    ∧ ch ∉ (bnStep rt ch data acc c').1.clientSubs cid := by
  unfold bnStep
  split
  · split
    · split
      · exact h
      · exact h
    · exact h
  · exact ⟨fun hm => h.1 (unsubscribe_sub_channel hm), fun hm => h.2 (unsubscribe_sub_client hm)⟩

/-- Frames already emitted stay in the output of the rest of the fold. -/
lemma bn_fold_out_mono (rt : RegexTest) (ch : String) (data : NotificationMessage) :
    ∀ (l : List String) (acc : SrvState × List (String × WsFrame))
      (x : String × WsFrame), x ∈ acc.2 → x ∈ (l.foldl (bnStep rt ch data) acc).2 := by
  intro l
  induction l with
  | nil => intro acc x hx; exact hx
  | cons c' rest ih =>
      intro acc x hx
      refine ih (bnStep rt ch data acc c') x ?_
      rcases bnStep_outs rt ch data acc c' with he | ⟨-, he⟩
      · rw [he]; exact hx
      · rw [he]; exact List.mem_append_left _ hx

/-- The fold preserves the rules and connection tables. -/
lemma bn_fold_frame (rt : RegexTest) (ch : String) (data : NotificationMessage) :
    ∀ (l : List String) (acc : SrvState × List (String × WsFrame)),
      (l.foldl (bnStep rt ch data) acc).1.channelRules = acc.1.channelRules
      ∧ (l.foldl (bnStep rt ch data) acc).1.conns = acc.1.conns := by
  intro l
  induction l with
  | nil => intro acc; exact ⟨rfl, rfl⟩
  | cons c' rest ih =>
      intro acc
      refine ⟨?_, ?_⟩
      · rw [List.foldl_cons, (ih (bnStep rt ch data acc c')).1,
          (bnStep_frame rt ch data acc c').1]
      · rw [List.foldl_cons, (ih (bnStep rt ch data acc c')).2,
          (bnStep_frame rt ch data acc c').2]

/-- Core eviction lemma: a subscriber without access that is still to be
processed (or already evicted) ends the fold evicted from both directions of
the index and receives no frame. -/
lemma bn_fold_evict (rt : RegexTest) (ch : String) (data : NotificationMessage) (cid : String) :
    ∀ (l : List String) (acc : SrvState × List (String × WsFrame)),
      hasChannelAccess rt acc.1 cid ch = false →
      ((cid ∉ acc.1.channelSubs ch ∧ ch ∉ acc.1.clientSubs cid) ∨ cid ∈ l) →
      (∀ f, (cid, f) ∉ acc.2) →
      cid ∉ (l.foldl (bnStep rt ch data) acc).1.channelSubs ch
      ∧ ch ∉ (l.foldl (bnStep rt ch data) acc).1.clientSubs cid
      ∧ ∀ f, (cid, f) ∉ (l.foldl (bnStep rt ch data) acc).2 := by
  intro l
  induction l with
  | nil =>
      intro acc hA hd houts
      rcases hd with ⟨h1, h2⟩ | h
      · exact ⟨h1, h2, houts⟩
      · exact absurd h (by simp)
  | cons c' rest ih =>
      intro acc hA hd houts
      have hA' : hasChannelAccess rt (bnStep rt ch data acc c').1 cid ch = false := by
        rw [hasChannelAccess_congr (bnStep_frame rt ch data acc c').1 rt cid ch]
        exact hA
      have houts' : ∀ f, (cid, f) ∉ (bnStep rt ch data acc c').2 := by
        intro f hf
        rcases bnStep_outs rt ch data acc c' with he | ⟨hacc, he⟩
        · rw [he] at hf; exact houts f hf
        · rw [he] at hf
          rcases List.mem_append.mp hf with hf | hf
          · exact houts f hf
          · have hpair : (cid, f) = (c', WsFrame.notificationMsg ch data) := by
              simpa using hf
            have hcid : cid = c' := congrArg Prod.fst hpair
            rw [← hcid] at hacc
            rw [hacc] at hA
            exact Bool.true_eq_false.mp hA
      have hd' : (cid ∉ (bnStep rt ch data acc c').1.channelSubs ch
            ∧ ch ∉ (bnStep rt ch data acc c').1.clientSubs cid) ∨ cid ∈ rest := by
        by_cases hr : cid ∈ rest
        · exact Or.inr hr
        · left
          rcases hd with hev | hl
          · exact bnStep_preserves_evicted rt ch data acc cid c' hev
          · have hc' : cid = c' := by
              rcases List.mem_cons.mp hl with h | h
              · exact h
              · exact absurd h hr
            subst hc'
            rw [bnStep_evict rt ch data acc cid hA]
            exact ⟨unsubscribe_not_mem_channel _ _ _, unsubscribe_not_mem_client _ _ _⟩
      exact ih (bnStep rt ch data acc c') hA' hd' houts'

/-- Core delivery lemma: a subscriber with access and a live open connection
receives the notification frame. -/
lemma bn_fold_deliver (rt : RegexTest) (ch : String) (data : NotificationMessage)
    (cid : String) (c : Conn) :
    ∀ (l : List String) (acc : SrvState × List (String × WsFrame)),
      cid ∈ l → hasChannelAccess rt acc.1 cid ch = true →
      acc.1.conns cid = some c → c.isOpen = true →
      (cid, WsFrame.notificationMsg ch data) ∈ (l.foldl (bnStep rt ch data) acc).2 := by
  intro l
  induction l with
  | nil => intro acc h; exact absurd h (by simp)
  | cons c' rest ih =>
      intro acc hmem hA hc hopen
      by_cases heq : cid = c'
      · subst heq
        have hstep := bnStep_deliver rt ch data acc cid c hA hc hopen
        refine bn_fold_out_mono rt ch data rest (bnStep rt ch data acc cid) _ ?_
        rw [hstep]
        simp
      · have hr : cid ∈ rest := by
          rcases List.mem_cons.mp hmem with h | h
          · exact absurd h heq
          · exact h
        refine ih (bnStep rt ch data acc c') hr ?_ ?_ hopen
        · rw [hasChannelAccess_congr (bnStep_frame rt ch data acc c').1 rt cid ch]
          exact hA
        · rw [(bnStep_frame rt ch data acc c').2]
          exact hc

/-- C1: On every publish, `broadcastNotification` re-checks the channel
policy for each id in the channel's subscriber snapshot: a subscriber whose
access no longer holds is unsubscribed from both directions of the
Subscription Index and receives no frame at all, while a subscriber whose
access holds and who has a live open connection receives the typed
`notification` frame. -/
theorem broadcastNotification_spec (rt : RegexTest) (st : SrvState) (ch : String)
    (data : NotificationMessage) (cid : String) (hmem : cid ∈ st.channelSubs ch) :
    (hasChannelAccess rt st cid ch = false →
        cid ∉ (broadcastNotification rt st ch data).1.channelSubs ch
        ∧ ch ∉ (broadcastNotification rt st ch data).1.clientSubs cid
        ∧ ∀ f, (cid, f) ∉ (broadcastNotification rt st ch data).2)
    ∧ (hasChannelAccess rt st cid ch = true →
        ∀ c, st.conns cid = some c → c.isOpen = true →
          (cid, WsFrame.notificationMsg ch data) ∈ (broadcastNotification rt st ch data).2) := by
  constructor
  · intro hA
    exact bn_fold_evict rt ch data cid (st.channelSubs ch) (st, []) hA (Or.inr hmem) (by simp)
  · intro hA c hc hopen
    exact bn_fold_deliver rt ch data cid c (st.channelSubs ch) (st, []) hmem hA hc hopen

/-- C1 witness scenario, step 1: a private channel `"priv"`. -/
def w1stA : SrvState := createChannel emptySrvState "priv" {}

/-- C1 witness scenario, step 2: grant `"c1"` access (this also subscribes). -/
def w1stB : SrvState := (grantAccessHandler w1stA "priv" "c1").2

/-- C1 witness scenario, step 3: revoke the access again; `"c1"` stays
subscribed. -/
def w1stC : SrvState := revokeChannelAccess w1stB "c1" "priv"

/-- C1 witness scenario, final state: `"c1"` additionally holds a live open
connection. -/
def w1st : SrvState :=
  { w1stC with conns := setFun w1stC.conns "c1" (some ⟨true, ["priv"]⟩) }

/-- A positive-delivery state for the C1 witness: public channel `"demo"`
with subscriber `"c2"` on a live open connection. -/
def w1pub : SrvState :=
  let base := subscribe (createChannel emptySrvState "demo" { isPublic := true }) "c2" "demo"
  { base with conns := setFun base.conns "c2" (some ⟨true, ["demo"]⟩) }

/-- The concrete published notification used in the C1 witness. -/
def w1data : NotificationMessage := ⟨"n1", "priv", "hello", 9⟩

/-- Witness for C1: after grant-then-revoke, a publish to `"priv"` delivers
nothing to `"c1"`'s live connection and removes `"c1"` from the subscriber
set, even though `"c1"` never unsubscribed; and on the public channel the
still-authorized live subscriber `"c2"` receives the typed frame. -/
theorem broadcastNotification_spec_witness :
    ("c1" ∈ w1st.channelSubs "priv" ∧ hasChannelAccess rtNone w1st "c1" "priv" = false
      ∧ "c2" ∈ w1pub.channelSubs "demo" ∧ hasChannelAccess rtNone w1pub "c2" "demo" = true
      ∧ w1pub.conns "c2" = some ⟨true, ["demo"]⟩)
    ∧ "c1" ∉ (broadcastNotification rtNone w1st "priv" w1data).1.channelSubs "priv"
    ∧ (∀ f, ("c1", f) ∉ (broadcastNotification rtNone w1st "priv" w1data).2)
    ∧ ("c2", WsFrame.notificationMsg "demo" w1data)
        ∈ (broadcastNotification rtNone w1pub "demo" w1data).2 := by
  refine ⟨⟨by decide, by decide, by decide, by decide, by decide⟩, ?_, ?_, ?_⟩
  · exact ((broadcastNotification_spec rtNone w1st "priv" w1data "c1" (by decide)).1
      (by decide)).1
  · exact ((broadcastNotification_spec rtNone w1st "priv" w1data "c1" (by decide)).1
      (by decide)).2.2
  · exact (broadcastNotification_spec rtNone w1pub "demo" w1data "c2" (by decide)).2
      (by decide) ⟨true, ["demo"]⟩ (by decide) (by decide)

/-! Section: C2: the unsubscribe control message -/

/-- C2 (amended): the handler `handleSubscription` performs the channel-access check
before dispatching on the action, so an `unsubscribe` control message is
honoured (Subscription Index `unsubscribe` plus the `unsubscribed`
acknowledgement) only when the access check passes; when it fails, the
handler replies with an `Access denied` error frame and leaves the
subscription in place. -/
theorem handleSubscription_unsubscribe_spec (rt : RegexTest) (st : SrvState) (cid ch : String) :
    handleSubscription rt st cid "unsubscribe" ch
      = if hasChannelAccess rt st cid ch then
          (connRemoveChannel (unsubscribe st cid ch) cid ch,
           [(cid, WsFrame.subscriptionAck "unsubscribed" ch)])
        else (st, [(cid, WsFrame.errorMsg ("Access denied to channel: " ++ ch))]) := by
  unfold handleSubscription
  by_cases hA : hasChannelAccess rt st cid ch = false
  · simp [hA]
  · simp only [Bool.not_eq_false] at hA
    simp [hA]

/-- C2 counterexample state: `"c1"` is subscribed to the private channel
`"priv"` (empty allow-list) and holds a live connection, but has no access. -/
def w2st : SrvState :=
  let base := subscribe (createChannel emptySrvState "priv" {}) "c1" "priv"
  { base with conns := setFun base.conns "c1" (some ⟨true, ["priv"]⟩) }

/-- C2 counterexample: at `w2st`, the `unsubscribe` control message
from `"c1"` for `"priv"` does *not* unconditionally unsubscribe: the access
check runs first and fails, the handler replies with an error frame instead
of an acknowledgement, and `"c1"` is still in the channel's subscriber set. -/
theorem handleSubscription_unsubscribe_counterexample :
    hasChannelAccess rtNone w2st "c1" "priv" = false
    ∧ handleSubscription rtNone w2st "c1" "unsubscribe" "priv"
        = (w2st, [("c1", WsFrame.errorMsg "Access denied to channel: priv")])
    ∧ "c1" ∈ (handleSubscription rtNone w2st "c1" "unsubscribe" "priv").1.channelSubs "priv" := by
  refine ⟨by decide, rfl, by decide⟩

end NotifServer
